import Mathlib

/-!
Shallow embedding of the ImageCompressor single-page app
(`src/unnamed/part_001`): the stand-in `Compressor` class, the
`ImageCompressorApp` state and its event handlers
(`handleFileChange`, `handleCompress` with its success/error
callbacks, `clearHistory`, `handleShare`), together with the
display formulas for the size-reduction percentage.

JS numbers are embedded as exact arithmetic (`Nat` / `ℚ`): for every
file size admitted by the upload validator (≤ 20 MiB = 2^21·10 bytes)
and every quality level 10–100, the IEEE-double computation
`Math.floor(originalSize * quality * 0.5)` never exceeds the exact
rational floor, so the exact model is a sound upper bound for the
stand-in's fabricated size.
-/

/-- Severity of a toast notification (`type` argument of `showToast`). -/
inductive ToastType where
  | success
  | error
  | info
deriving DecidableEq, Repr

/-- A toast notification: `setToast({ message, type })`. -/
structure Toast where
  message : String
  toastType : ToastType
deriving DecidableEq, Repr

/-- A file-like value: the fields of `File` / `Blob` the app reads
(`name`, `size`, `type`). -/
structure FileData where
  name : String
  size : Nat
  type : String
deriving DecidableEq, Repr

/-- One entry of `compressedHistory` (the object literal built in the
`success` callback of `handleCompress`). -/
structure HistoryEntry where
  id : Nat
  originalFileName : String
  originalSize : Nat
  compressedFileName : String
  compressedSize : Nat
  compressedBlob : FileData
deriving DecidableEq, Repr

/-- The page-level state bundle of `ImageCompressorApp`: the `useState`
cells the event handlers read and write. -/
structure AppState where
  selectedFile : Option FileData
  previewUrl : Option String
  compressionLevel : Nat
  isCompressing : Bool
  toast : Option Toast
  compressedHistory : List HistoryEntry
deriving DecidableEq, Repr

/-- `validTypes` in `handleFileChange`. -/
def validTypes : List String :=
  ["image/jpeg", "image/png", "image/gif", "image/webp", "image/jpg"]

/-- The upload size ceiling: `20 * 1024 * 1024` bytes. -/
def maxFileSize : Nat := 20 * 1024 * 1024

/-- `handleFileChange`: the upload handler. It first unconditionally
clears `selectedFile`, `compressedHistory`, the preview URL and the
toast and resets `compressionLevel` to 70, then validates the incoming
file (presence, MIME type against `validTypes`, size against the 20 MB
ceiling) and either reports an error or installs the file as the new
selection.  The transient "Processing file..." toast shown on entry is
cleared again (`setToast(null)`) before validation, so it never
survives the handler. -/
def handleFileChange (s : AppState) (file? : Option FileData) : AppState :=
  let s0 : AppState :=
    { s with selectedFile := none
           , compressedHistory := []
           , previewUrl := none
           , compressionLevel := 70
           , toast := none }
  match file? with
  | none => { s0 with toast := some ⟨"No file selected.", ToastType.error⟩ }
  | some file =>
    if file.type ∈ validTypes then
      if file.size > maxFileSize then
        { s0 with toast := some ⟨"File size should be less than 20MB.", ToastType.error⟩ }
      else
        { s0 with selectedFile := some file
                , previewUrl := some ("blob:" ++ file.name)
                , toast := some ⟨"Image uploaded successfully!", ToastType.success⟩ }
    else
      { s0 with toast := some ⟨"Unsupported file type. Please upload JPG, JPEG, PNG, GIF, or WEBP images.", ToastType.error⟩ }

/-- The output-filename derivation of the stand-in `Compressor`
(lines 42–45): `file.name.split('.')`, `pop()` the extension,
`join('.')` the remaining parts, then `` `${baseName}_ai.${extension}` ``.
JS `split('.')` on a string is splitting the character list on `'.'`. -/
def newFileName (name : String) : String :=
  let originalFileNameParts := name.data.splitOn '.'
  let extension := originalFileNameParts.getLastD []
  let baseName := List.intercalate ['.'] originalFileNameParts.dropLast
  String.mk (baseName ++ ('_' :: 'a' :: 'i' :: '.' :: extension))

/-- The fallback filename derivation inside the `success` callback of
`handleCompress` (lines 290–295), used when the result blob carries no
`name`; textually the same computation as the stand-in's. -/
def fallbackFileName (name : String) : String :=
  let originalFileNameParts := name.data.splitOn '.'
  let extension := originalFileNameParts.getLastD []
  let baseName := List.intercalate ['.'] originalFileNameParts.dropLast
  String.mk (baseName ++ ('_' :: 'a' :: 'i' :: '.' :: extension))

/-- The fabricated output of the stand-in `Compressor` (lines 30–49):
size `Math.max(1024, Math.floor(originalSize * quality * 0.5))`, the
original MIME type, and the `_ai`-suffixed name. `quality` is the 0–1
fraction passed in the options. -/
def compressorStandIn (file : FileData) (quality : ℚ) : FileData :=
  let simulatedCompressedSize := max 1024 (⌊(file.size : ℚ) * quality * (1/2)⌋₊)
  { name := newFileName file.name
  , size := simulatedCompressedSize
  , type := file.type }

/-- The stand-in invoked the way `handleCompress` invokes it:
`quality: compressionLevel / 100` for a slider level 10–100. -/
def standInCompress (file : FileData) (level : Nat) : FileData :=
  compressorStandIn file ((level : ℚ) / 100)

/-- `Number.prototype.toFixed(1)` on an exact rational: round to one
decimal place (half away from the smaller value). -/
def toFixed1 (x : ℚ) : ℚ := ((round (10 * x) : ℤ) : ℚ) / 10

/-- The percentage shown by the success toast of `handleCompress`
(line 314): `(100 - (result.size / selectedFile.size) * 100).toFixed(1)`. -/
def successToastReduction (originalSize compressedSize : Nat) : ℚ :=
  toFixed1 (100 - ((compressedSize : ℚ) / (originalSize : ℚ)) * 100)

/-- The reduction displayed on a history card (line 573):
`((1 - (item.compressedSize / item.originalSize)) * 100).toFixed(1)`. -/
def historyReductionDisplay (originalSize compressedSize : Nat) : ℚ :=
  toFixed1 ((1 - (compressedSize : ℚ) / (originalSize : ℚ)) * 100)

/-- Modelled from the spec's words, for comparison with the two display
sites: `100 × (1 − compressedSize/originalSize)` rounded to one decimal. -/
def specReductionPercent (originalSize compressedSize : Nat) : ℚ :=
  toFixed1 (100 * (1 - (compressedSize : ℚ) / (originalSize : ℚ)))

/-- The history entry built in the `success` callback of
`handleCompress` (lines 301–311).  `fileNameToUse` is
`result.name || <fallback derivation>`: JS `||` falls through on the
empty string. -/
def mkHistoryEntry (selected result : FileData) (entryId : Nat) : HistoryEntry :=
  let fileNameToUse := if result.name = "" then fallbackFileName selected.name else result.name
  { id := entryId
  , originalFileName := selected.name
  , originalSize := selected.size
  , compressedFileName := fileNameToUse
  , compressedSize := result.size
  , compressedBlob := { name := fileNameToUse, size := result.size, type := result.type } }

/-- The `success` callback of `handleCompress` (lines 289–321):
prepend a history entry, clear the busy flag, toast the saving
percentage, clear the selection and preview, reset the slider. -/
def handleCompressSuccess (s : AppState) (selected result : FileData) (entryId : Nat) : AppState :=
  { s with compressedHistory := mkHistoryEntry selected result entryId :: s.compressedHistory
         , isCompressing := false
         , toast := some ⟨"Image compressed successfully! Saved "
             ++ toString (successToastReduction selected.size result.size) ++ "%", ToastType.success⟩
         , selectedFile := none
         , previewUrl := none
         , compressionLevel := 70 }

/-- The `error` callback of `handleCompress` (lines 322–325): toast the
failure's message, clear the busy flag, touch nothing else. -/
def handleCompressError (s : AppState) (errMessage : String) : AppState :=
  { s with toast := some ⟨"Compression failed: " ++ errMessage ++ ". Please try again.", ToastType.error⟩
         , isCompressing := false }

/-- The synchronous front of `handleCompress` (lines 266–280): with no
selection, toast an error and return without invoking any compressor;
with a selection, set the busy flag (the transient "Compressing
image..." toast is cleared again by `setToast(null)`) and invoke the
compressor.  The returned `Bool` records whether a compressor was
invoked. -/
def handleCompress (s : AppState) : AppState × Bool :=
  match s.selectedFile with
  | none => ({ s with toast := some ⟨"Please upload an image to compress.", ToastType.error⟩ }, false)
  | some _ => ({ s with isCompressing := true, toast := none }, true)

/-- `clearHistory` (lines 401–404). -/
def clearHistory (s : AppState) : AppState :=
  { s with compressedHistory := []
         , toast := some ⟨"Compression history cleared!", ToastType.info⟩ }

/-- Folding a batch of successful compressions over a state: each run is
(the selected file, the result blob, the `Date.now()` id). -/
def runSuccesses (s : AppState) (runs : List (FileData × FileData × Nat)) : AppState :=
  runs.foldl (fun st r => handleCompressSuccess st r.1 r.2.1 r.2.2) s

/-- The entry a single run contributes. -/
def entryOfRun (r : FileData × FileData × Nat) : HistoryEntry :=
  mkHistoryEntry r.1 r.2.1 r.2.2

/-- The payload handed to `navigator.share` by `handleShare`
(lines 359–363): one named file plus title and text. -/
structure SharePayload where
  fileName : String
  fileType : String
  title : String
  text : String
deriving DecidableEq, Repr

/-- A rejection from `navigator.share`: JS errors carry `name` and
`message`. -/
structure ShareError where
  name : String
  message : String
deriving DecidableEq, Repr

/-- What one call of `handleShare` did: the payload passed to
`navigator.share` (none if it was never invoked) and the toast shown. -/
structure ShareAttempt where
  payload : Option SharePayload
  toast : Option Toast
deriving DecidableEq, Repr

/-- `handleShare` (lines 348–380).  `supported` is the feature test
`navigator.share && navigator.canShare({files: [shareFile]})`;
`outcome` is how the share promise settled when it was invoked. -/
def handleShare (fileBlob : Option FileData) (fileName : String) (supported : Bool)
    (outcome : Except ShareError Unit) : ShareAttempt :=
  match fileBlob with
  | none => { payload := none, toast := some ⟨"No compressed file to share.", ToastType.error⟩ }
  | some blob =>
    if supported then
      { payload := some
          { fileName := fileName
          , fileType := blob.type
          , title := "Compressed Image - " ++ fileName
          , text := "Check out this image I compressed using ImageCompressor.ai!" }
      , toast :=
          match outcome with
          | Except.ok _ => some ⟨"Image shared successfully!", ToastType.success⟩
          | Except.error e =>
            if e.name = "AbortError" then some ⟨"Sharing cancelled.", ToastType.info⟩
            else some ⟨"Failed to share image: " ++ e.message, ToastType.error⟩ }
    else
      { payload := none
      , toast := some ⟨"Your browser does not support sharing files directly. Please download and share manually.", ToastType.info⟩ }

/-- The identifier the stand-in's interval callback passes to the
progress callback: `options.progress(percentage)` (line 21). -/
def standInProgressArgName : String := "percentage"

/-- Every identifier lexically visible at that call site: the interval
callback's enclosing `setTimeout` callback (`progress`,
`progressInterval`), the constructor (`file`, `options`), and the
module scope of `src/unnamed/part_001`. -/
def standInLexicalScope : List String :=
  ["progress", "progressInterval", "file", "options",
   "Compressor", "Toast", "PrivacyPolicyModal", "ImageCompressorApp",
   "React", "useState", "useRef", "useEffect", "useCallback"]

/-- The numeric bindings live at the call site: only the interval
counter `progress` holds a number there. -/
def standInCounterBindings (counter : Nat) : List (String × Nat) :=
  [("progress", counter)]

/-- Evaluating the argument of `options.progress(percentage)`: look the
identifier up among the value bindings in scope; an unbound identifier
yields nothing (a `ReferenceError` at runtime). -/
def standInProgressArgValue (counter : Nat) : Option Nat :=
  (standInCounterBindings counter).lookup standInProgressArgName

/-- The values the interval counter takes while the guard
`progress <= 100` holds: `progress += 10` from 0, i.e. 10, 20, …, 100. -/
def standInCounterValues : List Nat :=
  (List.range 10).map (fun i => 10 * (i + 1))

/-! ### Helper lemmas -/

theorem modifyHead_append_of_ne_nil (f : List Char → List Char) (A B : List (List Char))
    (h : A ≠ []) : (A ++ B).modifyHead f = A.modifyHead f ++ B := by
  cases A with
  | nil => exact absurd rfl h
  | cons a as => rfl

theorem splitOn_dot_append (xs ys : List Char) :
    (xs ++ '.' :: ys).splitOn '.' = xs.splitOn '.' ++ ys.splitOn '.' := by
  simp only [List.splitOn]
  induction xs with
  | nil => simp [List.splitOnP_cons]
  | cons c cs ih =>
    by_cases hc : c = '.'
    · subst hc
      simp [List.splitOnP_cons, ih]
    · simp only [List.cons_append, List.splitOnP_cons, beq_iff_eq, hc, if_false, ih]
      exact modifyHead_append_of_ne_nil _ _ _ (List.splitOnP_ne_nil _ cs)

theorem splitOn_dot_of_not_mem (xs : List Char) (h : '.' ∉ xs) :
    xs.splitOn '.' = [xs] := by
  simp only [List.splitOn]
  refine List.splitOnP_eq_single _ _ ?_
  intro x hx hb
  rw [beq_iff_eq] at hb
  exact h (hb ▸ hx)

theorem getLastD_concat_char (A : List (List Char)) (e d : List Char) :
    (A ++ [e]).getLastD d = e := by
  induction A with
  | nil => rfl
  | cons a as ih =>
    cases as with
    | nil => rfl
    | cons b bs => simpa using ih

theorem standInCompress_size (file : FileData) (level : Nat) :
    (standInCompress file level).size = max 1024 (file.size * level / 200) := by
  unfold standInCompress compressorStandIn
  have h : (file.size : ℚ) * ((level : ℚ) / 100) * (1/2)
      = ((file.size * level : ℕ) : ℚ) / ((200 : ℕ) : ℚ) := by
    push_cast
    ring
  simp only [h, Nat.floor_div_eq_div]

theorem newFileName_core (base ext : List Char) (h : '.' ∉ ext) :
    newFileName (String.mk (base ++ '.' :: ext)) = String.mk (base ++ '_' :: 'a' :: 'i' :: '.' :: ext) := by
  unfold newFileName
  show String.mk _ = _
  rw [show (String.mk (base ++ '.' :: ext)).data = base ++ '.' :: ext from rfl]
  rw [splitOn_dot_append, splitOn_dot_of_not_mem ext h, getLastD_concat_char,
      List.dropLast_concat, List.intercalate_splitOn]

theorem newFileName_no_dot (name : List Char) (h : '.' ∉ name) :
    newFileName (String.mk name) = String.mk ('_' :: 'a' :: 'i' :: '.' :: name) := by
  unfold newFileName
  rw [show (String.mk name).data = name from rfl]
  rw [splitOn_dot_of_not_mem name h]
  rfl

theorem runSuccesses_history (runs : List (FileData × FileData × Nat)) (s : AppState) :
    (runSuccesses s runs).compressedHistory
      = (runs.map entryOfRun).reverse ++ s.compressedHistory := by
  induction runs generalizing s with
  | nil => rfl
  | cons r rs ih =>
    show (runSuccesses (handleCompressSuccess s r.1 r.2.1 r.2.2) rs).compressedHistory = _
    rw [ih]
    simp [handleCompressSuccess, entryOfRun]

/-! ### Claims -/

/-- C1 (counterexample): the claim says a rejected upload leaves the
Selection, history, quality and preview at their prior values; but
`handleFileChange` clears all of them before validating, so after
rejecting a `text/plain` file the prior selection, history, quality
level 55 and preview are gone (while the error toast does name the
violated constraint). -/
theorem handleFileChange_reject_not_stateless :
    (handleFileChange
      { selectedFile := some ⟨"old.png", 100, "image/png"⟩
      , previewUrl := some "blob:old.png"
      , compressionLevel := 55
      , isCompressing := false
      , toast := none
      , compressedHistory := [⟨1, "old.png", 100, "old_ai.png", 50, ⟨"old_ai.png", 50, "image/png"⟩⟩] }
      (some ⟨"notes.txt", 10, "text/plain"⟩)).toast
      = some ⟨"Unsupported file type. Please upload JPG, JPEG, PNG, GIF, or WEBP images.", ToastType.error⟩
    ∧ (handleFileChange
      { selectedFile := some ⟨"old.png", 100, "image/png"⟩
      , previewUrl := some "blob:old.png"
      , compressionLevel := 55
      , isCompressing := false
      , toast := none
      , compressedHistory := [⟨1, "old.png", 100, "old_ai.png", 50, ⟨"old_ai.png", 50, "image/png"⟩⟩] }
      (some ⟨"notes.txt", 10, "text/plain"⟩)).selectedFile ≠ some ⟨"old.png", 100, "image/png"⟩
    ∧ (handleFileChange
      { selectedFile := some ⟨"old.png", 100, "image/png"⟩
      , previewUrl := some "blob:old.png"
      , compressionLevel := 55
      , isCompressing := false
      , toast := none
      , compressedHistory := [⟨1, "old.png", 100, "old_ai.png", 50, ⟨"old_ai.png", 50, "image/png"⟩⟩] }
      (some ⟨"notes.txt", 10, "text/plain"⟩)).compressedHistory
      ≠ [⟨1, "old.png", 100, "old_ai.png", 50, ⟨"old_ai.png", 50, "image/png"⟩⟩]
    ∧ (handleFileChange
      { selectedFile := some ⟨"old.png", 100, "image/png"⟩
      , previewUrl := some "blob:old.png"
      , compressionLevel := 55
      , isCompressing := false
      , toast := none
      , compressedHistory := [⟨1, "old.png", 100, "old_ai.png", 50, ⟨"old_ai.png", 50, "image/png"⟩⟩] }
      (some ⟨"notes.txt", 10, "text/plain"⟩)).compressionLevel ≠ 55
    ∧ (handleFileChange
      { selectedFile := some ⟨"old.png", 100, "image/png"⟩
      , previewUrl := some "blob:old.png"
      , compressionLevel := 55
      , isCompressing := false
      , toast := none
      , compressedHistory := [⟨1, "old.png", 100, "old_ai.png", 50, ⟨"old_ai.png", 50, "image/png"⟩⟩] }
      (some ⟨"notes.txt", 10, "text/plain"⟩)).previewUrl ≠ some "blob:old.png" := by
  decide

/-- C1 (amended): every upload attempt first clears Selection, history
and preview and resets quality to 70.  An accepted file (allowed MIME
type, size ≤ 20 MiB) then becomes the Selection with a success toast;
a rejected input (absent, disallowed type, or oversized) leaves the
Selection cleared — not at its prior value — with an error toast naming
the violated constraint. -/
theorem handleFileChange_contract (s : AppState) (file? : Option FileData) :
    (∀ f, file? = some f → f.type ∈ validTypes → f.size ≤ maxFileSize →
      (handleFileChange s file?).selectedFile = some f
      ∧ (handleFileChange s file?).toast = some ⟨"Image uploaded successfully!", ToastType.success⟩)
    ∧ (file? = none →
      (handleFileChange s file?).toast = some ⟨"No file selected.", ToastType.error⟩
      ∧ (handleFileChange s file?).selectedFile = none
      ∧ (handleFileChange s file?).previewUrl = none)
    ∧ (∀ f, file? = some f → f.type ∉ validTypes →
      (handleFileChange s file?).toast
        = some ⟨"Unsupported file type. Please upload JPG, JPEG, PNG, GIF, or WEBP images.", ToastType.error⟩
      ∧ (handleFileChange s file?).selectedFile = none
      ∧ (handleFileChange s file?).previewUrl = none)
    ∧ (∀ f, file? = some f → f.type ∈ validTypes → maxFileSize < f.size →
      (handleFileChange s file?).toast = some ⟨"File size should be less than 20MB.", ToastType.error⟩
      ∧ (handleFileChange s file?).selectedFile = none
      ∧ (handleFileChange s file?).previewUrl = none)
    ∧ (handleFileChange s file?).compressedHistory = []
    ∧ (handleFileChange s file?).compressionLevel = 70 := by
  refine ⟨?_, ?_, ?_, ?_, ?_, ?_⟩
  · rintro f rfl ht hs
    have hs' : ¬ (f.size > maxFileSize) := by omega
    refine ⟨?_, ?_⟩ <;> simp [handleFileChange, ht, hs']
  · rintro rfl
    exact ⟨rfl, rfl, rfl⟩
  · rintro f rfl ht
    refine ⟨?_, ?_, ?_⟩ <;> simp [handleFileChange, ht]
  · rintro f rfl ht hs
    refine ⟨?_, ?_, ?_⟩ <;> simp [handleFileChange, ht, hs]
  · rcases file? with _ | f
    · rfl
    · simp only [handleFileChange]
      split_ifs <;> rfl
  · rcases file? with _ | f
    · rfl
    · simp only [handleFileChange]
      split_ifs <;> rfl

/-- C1 (witness): a concrete accepted upload — a 100-byte `image/png`
file becomes the Selection with the success toast — and a concrete
rejection with the size-limit toast. -/
theorem handleFileChange_contract_witness :
    (handleFileChange ⟨none, none, 70, false, none, []⟩ (some ⟨"a.png", 100, "image/png"⟩)).selectedFile
      = some ⟨"a.png", 100, "image/png"⟩
    ∧ (handleFileChange ⟨none, none, 70, false, none, []⟩ (some ⟨"big.png", 25 * 1024 * 1024, "image/png"⟩)).toast
      = some ⟨"File size should be less than 20MB.", ToastType.error⟩ := by
  constructor
  · exact ((handleFileChange_contract ⟨none, none, 70, false, none, []⟩
      (some ⟨"a.png", 100, "image/png"⟩)).1 _ rfl (by decide) (by decide)).1
  · exact ((handleFileChange_contract ⟨none, none, 70, false, none, []⟩
      (some ⟨"big.png", 25 * 1024 * 1024, "image/png"⟩)).2.2.2.1 _ rfl (by decide) (by decide)).1

/-- C2 (counterexample): a 500-byte `image/jpeg` at quality 70 comes out
of the stand-in at 1024 bytes — the `Math.max(1024, ...)` floor — which
is not strictly less than the 500-byte original. -/
theorem standIn_small_file_not_smaller :
    (standInCompress ⟨"cat.jpg", 500, "image/jpeg"⟩ 70).size = 1024
    ∧ ¬ (standInCompress ⟨"cat.jpg", 500, "image/jpeg"⟩ 70).size < 500 := by
  refine ⟨?_, ?_⟩ <;> rw [standInCompress_size] <;> norm_num

/-- C2 (amended): for every quality level 10–100, a stand-in compression
of a file strictly larger than 1024 bytes produces an output strictly
smaller than the original; originals of at most 1024 bytes are clamped
up to the 1024-byte minimum instead. -/
theorem standIn_output_smaller (file : FileData) (level : Nat)
    (_hlevel₁ : 10 ≤ level) (hlevel₂ : level ≤ 100) (hsize : 1024 < file.size) :
    (standInCompress file level).size < file.size := by
  rw [standInCompress_size]
  refine max_lt hsize ?_
  have h1 : file.size * level ≤ file.size * 100 :=
    Nat.mul_le_mul (Nat.le_refl _) hlevel₂
  generalize hgen : file.size * level = t at h1
  omega

/-- C2 (witness): the 2,000,000-byte example at quality 70 indeed
shrinks: 700,000 < 2,000,000. -/
theorem standIn_output_smaller_witness :
    (standInCompress ⟨"cat.jpg", 2000000, "image/jpeg"⟩ 70).size < 2000000 :=
  standIn_output_smaller ⟨"cat.jpg", 2000000, "image/jpeg"⟩ 70
    (by norm_num) (by norm_num) (by norm_num)

/-- C3 (counterexample): for the extensionless name `photo` both
derivations yield `_ai.photo`, which neither equals `photo_ai` (base
name plus marker) nor `photo_ai.` nor even begins with the base name
`photo`: the whole name is treated as the extension. -/
theorem fileName_dotless_counterexample :
    newFileName "photo" = "_ai.photo"
    ∧ fallbackFileName "photo" = "_ai.photo"
    ∧ newFileName "photo" ≠ "photo_ai"
    ∧ newFileName "photo" ≠ "photo_ai."
    ∧ (newFileName "photo").data.take 5 ≠ "photo".data := by
  decide

/-- C3 (amended): for every original name of the form
`base ++ "." ++ ext` with a dot-free `ext`, both the stand-in derivation
and the success-handler fallback produce `base ++ "_ai." ++ ext` (so
`photo.png` becomes `photo_ai.png`); the two derivations agree on all
names; and on a dot-free name both produce `"_ai." ++ name` instead of
appending the marker. -/
theorem fileName_insertion (base ext : List Char) (h : '.' ∉ ext) :
    newFileName (String.mk (base ++ '.' :: ext)) = String.mk (base ++ '_' :: 'a' :: 'i' :: '.' :: ext)
    ∧ (∀ name : String, fallbackFileName name = newFileName name)
    ∧ (∀ name : List Char, '.' ∉ name →
        newFileName (String.mk name) = String.mk ('_' :: 'a' :: 'i' :: '.' :: name)) :=
  ⟨newFileName_core base ext h, fun _ => rfl, newFileName_no_dot⟩

/-- C3 (witness): `photo.png` becomes `photo_ai.png` under both
derivations. -/
theorem fileName_insertion_witness :
    newFileName "photo.png" = "photo_ai.png"
    ∧ fallbackFileName "photo.png" = "photo_ai.png" := by
  have h := fileName_insertion "photo".data "png".data (by decide)
  exact ⟨h.1, (h.2.1 "photo.png").trans h.1⟩

/-- C4: the stand-in's fabricated output has size exactly
`max(1024, floor(originalSize × (level/100) × 0.5))` — in particular
bounded above by it — equal to `max 1024 (originalSize·level/200)` in
exact arithmetic, and carries the input's MIME type; the 2,000,000-byte
`image/jpeg` at quality 70 yields exactly 700,000 bytes. -/
theorem standIn_size_bound (file : FileData) (level : Nat) :
    (standInCompress file level).size
      = max 1024 (⌊(file.size : ℚ) * ((level : ℚ) / 100) * (1/2)⌋₊)
    ∧ (standInCompress file level).size ≤ max 1024 (file.size * level / 200)
    ∧ (standInCompress file level).type = file.type
    ∧ (standInCompress ⟨"cat.jpg", 2000000, "image/jpeg"⟩ 70).size = 700000 := by
  refine ⟨rfl, le_of_eq (standInCompress_size file level), rfl, ?_⟩
  rw [standInCompress_size]
  norm_num

/-- C5: the percentage in the success toast,
`(100 - (result.size / selectedFile.size) * 100).toFixed(1)`, and the
percentage on each history card,
`((1 - compressedSize/originalSize) * 100).toFixed(1)`, both equal the
spec's `100 × (1 − compressedSize/originalSize)` rounded to one
decimal. -/
theorem reduction_formulas_agree (originalSize compressedSize : Nat) :
    successToastReduction originalSize compressedSize
      = specReductionPercent originalSize compressedSize
    ∧ historyReductionDisplay originalSize compressedSize
      = specReductionPercent originalSize compressedSize := by
  unfold successToastReduction historyReductionDisplay specReductionPercent
  constructor <;> · congr 1; ring

/-- C6: the `error` callback of `handleCompress` toasts
`Compression failed: <message>. Please try again.` as an error, leaves
the Selection, its preview and the history untouched, and clears the
busy flag. -/
theorem compressError_keeps_selection (s : AppState) (errMessage : String) :
    (handleCompressError s errMessage).toast
      = some ⟨"Compression failed: " ++ errMessage ++ ". Please try again.", ToastType.error⟩
    ∧ (handleCompressError s errMessage).selectedFile = s.selectedFile
    ∧ (handleCompressError s errMessage).previewUrl = s.previewUrl
    ∧ (handleCompressError s errMessage).isCompressing = false
    ∧ (handleCompressError s errMessage).compressedHistory = s.compressedHistory
    ∧ (handleCompressError s errMessage).compressionLevel = s.compressionLevel :=
  ⟨rfl, rfl, rfl, rfl, rfl, rfl⟩

/-- C7: each success prepends exactly one entry, so N successful
compressions starting from an empty history leave exactly N entries in
reverse (newest-first) order of their runs, and `clearHistory` empties
the history from any state. -/
theorem history_accumulation (runs : List (FileData × FileData × Nat)) (s : AppState)
    (h : s.compressedHistory = []) :
    (runSuccesses s runs).compressedHistory = (runs.map entryOfRun).reverse
    ∧ (runSuccesses s runs).compressedHistory.length = runs.length
    ∧ (∀ st sel res entryId, (handleCompressSuccess st sel res entryId).compressedHistory
        = mkHistoryEntry sel res entryId :: st.compressedHistory)
    ∧ (∀ st, (clearHistory st).compressedHistory = []) := by
  have h1 : (runSuccesses s runs).compressedHistory = (runs.map entryOfRun).reverse := by
    rw [runSuccesses_history, h, List.append_nil]
  refine ⟨h1, ?_, fun st sel res entryId => rfl, fun st => rfl⟩
  rw [h1]
  simp

/-- C7 (witness): two concrete successful compressions leave exactly the
two entries newest-first, and a concrete clear empties a nonempty
history. -/
theorem history_accumulation_witness :
    (runSuccesses ⟨none, none, 70, false, none, []⟩
      [(⟨"a.png", 4000, "image/png"⟩, ⟨"a_ai.png", 2000, "image/png"⟩, 1),
       (⟨"b.png", 6000, "image/png"⟩, ⟨"b_ai.png", 3000, "image/png"⟩, 2)]).compressedHistory
      = [entryOfRun (⟨"b.png", 6000, "image/png"⟩, ⟨"b_ai.png", 3000, "image/png"⟩, 2),
         entryOfRun (⟨"a.png", 4000, "image/png"⟩, ⟨"a_ai.png", 2000, "image/png"⟩, 1)]
    ∧ (runSuccesses ⟨none, none, 70, false, none, []⟩
      [(⟨"a.png", 4000, "image/png"⟩, ⟨"a_ai.png", 2000, "image/png"⟩, 1),
       (⟨"b.png", 6000, "image/png"⟩, ⟨"b_ai.png", 3000, "image/png"⟩, 2)]).compressedHistory.length = 2
    ∧ (clearHistory ⟨none, none, 70, false, none,
        [⟨1, "a.png", 4000, "a_ai.png", 2000, ⟨"a_ai.png", 2000, "image/png"⟩⟩]⟩).compressedHistory = [] := by
  have h := history_accumulation
    [(⟨"a.png", 4000, "image/png"⟩, ⟨"a_ai.png", 2000, "image/png"⟩, 1),
     (⟨"b.png", 6000, "image/png"⟩, ⟨"b_ai.png", 3000, "image/png"⟩, 2)]
    ⟨none, none, 70, false, none, []⟩ rfl
  exact ⟨h.1, h.2.1, h.2.2.2 _⟩

/-- C8: triggering `handleCompress` with no Selection only toasts
`Please upload an image to compress.`: the history, busy flag, preview
and quality are unchanged and no compressor is invoked. -/
theorem compress_without_selection (s : AppState) (h : s.selectedFile = none) :
    (handleCompress s).1.toast = some ⟨"Please upload an image to compress.", ToastType.error⟩
    ∧ (handleCompress s).1.compressedHistory = s.compressedHistory
    ∧ (handleCompress s).1.isCompressing = s.isCompressing
    ∧ (handleCompress s).1.selectedFile = none
    ∧ (handleCompress s).1.previewUrl = s.previewUrl
    ∧ (handleCompress s).1.compressionLevel = s.compressionLevel
    ∧ (handleCompress s).2 = false := by
  simp [handleCompress, h]

/-- C8 (witness): the idle empty state concretely. -/
theorem compress_without_selection_witness :
    (handleCompress ⟨none, none, 70, false, none, []⟩).1.toast
      = some ⟨"Please upload an image to compress.", ToastType.error⟩
    ∧ (handleCompress ⟨none, none, 70, false, none, []⟩).2 = false := by
  have h := compress_without_selection ⟨none, none, 70, false, none, []⟩ rfl
  exact ⟨h.1, h.2.2.2.2.2.2⟩

/-- C9: with a payload present and native file-sharing supported,
`handleShare` packages the named file with its title and text and
shares it; an `AbortError` rejection yields only the informational
`Sharing cancelled.` toast, any other rejection an error toast carrying
the failure's message; when unsupported, only the informational
unsupported-toast is shown and nothing is shared. -/
theorem share_behaviour (blob? : Option FileData) (fileName : String)
    (outcome : Except ShareError Unit) :
    (∀ b, blob? = some b →
      (handleShare blob? fileName true outcome).payload
        = some ⟨fileName, b.type, "Compressed Image - " ++ fileName,
            "Check out this image I compressed using ImageCompressor.ai!"⟩
      ∧ (outcome = Except.ok () →
          (handleShare blob? fileName true outcome).toast
            = some ⟨"Image shared successfully!", ToastType.success⟩)
      ∧ (∀ e, outcome = Except.error e → e.name = "AbortError" →
          (handleShare blob? fileName true outcome).toast
            = some ⟨"Sharing cancelled.", ToastType.info⟩)
      ∧ (∀ e, outcome = Except.error e → e.name ≠ "AbortError" →
          (handleShare blob? fileName true outcome).toast
            = some ⟨"Failed to share image: " ++ e.message, ToastType.error⟩))
    ∧ (∀ b, blob? = some b →
        (handleShare blob? fileName false outcome).payload = none
        ∧ (handleShare blob? fileName false outcome).toast
          = some ⟨"Your browser does not support sharing files directly. Please download and share manually.", ToastType.info⟩) := by
  constructor
  · rintro b rfl
    refine ⟨rfl, ?_, ?_, ?_⟩
    · rintro rfl
      rfl
    · rintro e rfl he
      simp [handleShare, he]
    · rintro e rfl he
      simp [handleShare, he]
  · rintro b rfl
    exact ⟨rfl, rfl⟩

/-- C9 (witness): a concrete cancelled share yields the informational
toast, a concrete other failure carries its message, and a concrete
unsupported platform shares nothing. -/
theorem share_behaviour_witness :
    (handleShare (some ⟨"a_ai.png", 2000, "image/png"⟩) "a_ai.png" true
      (Except.error ⟨"AbortError", "user dismissed"⟩)).toast
      = some ⟨"Sharing cancelled.", ToastType.info⟩
    ∧ (handleShare (some ⟨"a_ai.png", 2000, "image/png"⟩) "a_ai.png" true
      (Except.error ⟨"NotAllowedError", "permission denied"⟩)).toast
      = some ⟨"Failed to share image: permission denied", ToastType.error⟩
    ∧ (handleShare (some ⟨"a_ai.png", 2000, "image/png"⟩) "a_ai.png" false
      (Except.ok ())).payload = none := by
  refine ⟨?_, ?_, ?_⟩
  · exact ((share_behaviour (some ⟨"a_ai.png", 2000, "image/png"⟩) "a_ai.png"
      (Except.error ⟨"AbortError", "user dismissed"⟩)).1 _ rfl).2.2.1 _ rfl rfl
  · exact ((share_behaviour (some ⟨"a_ai.png", 2000, "image/png"⟩) "a_ai.png"
      (Except.error ⟨"NotAllowedError", "permission denied"⟩)).1 _ rfl).2.2.2 _ rfl (by decide)
  · exact ((share_behaviour (some ⟨"a_ai.png", 2000, "image/png"⟩) "a_ai.png"
      (Except.ok ())).2 _ rfl).1

/-- C10: the stand-in's progress invocation `options.progress(percentage)`
names an identifier bound neither in the interval callback's scope
chain nor among the numeric bindings live at the call, so evaluating
the argument never yields the interval counter's value (the counter
itself steps 10, 20, …, 100). -/
theorem standIn_progress_arg_unbound :
    standInProgressArgName ∉ standInLexicalScope
    ∧ (∀ counter : Nat, standInProgressArgValue counter = none)
    ∧ (∀ counter : Nat, standInProgressArgValue counter ≠ some counter)
    ∧ standInCounterValues = [10, 20, 30, 40, 50, 60, 70, 80, 90, 100] := by
  refine ⟨by decide, fun counter => rfl, fun counter h => ?_, by decide⟩
  exact Option.noConfusion h
